import Mathlib

/-!
Shallow embedding of the Cerina CBT workflow orchestration core.

Sources embedded (LLM calls are modelled as opaque oracles of type
`Except String α`: `.ok` is a successful structured-output call, `.error e`
is an internal error whose text `e` is what `str(e)` yields in Python):

* `backend/agents/critic/schemas.py` — critique schemas.
* `backend/agents/critic/state.py` — `CriticState` and the two reducers
  `add_messages` / `concat_strings`.
* `backend/agents/critic/agent.py` — the three critic nodes, the
  consolidator node and `CriticAgent.invoke`.
* `backend/agents/router.py` — `RouterAgent.invoke` (JSON parsing modelled
  as an oracle over the parsed document).
* `backend/graph.py` — `should_continue_reflection`, `route_after_approval`
  and the `await_plan_approval` interrupt node.
* `backend/agents/reviser/agent.py` — `ReviserAgent.invoke`.
* `backend/agents/draftsman/agent.py` — `DraftsmanAgent.invoke` result,
  `_section_draft_node`, `_should_continue_drafting`, `_draft_assembler_node`.
* `backend/websocket_routes.py` — the duplicate-event filter of
  `stream_resumed_events`.

The top-level graph state is a Python dict (`AgentState`); absent keys are
modelled with `Option` fields (`none` = key absent) and every read via
`state.get(k, d)` in the source becomes `(s.k).getD d` here.
-/

/-- Schema `CritiqueItem` of `backend/agents/critic/schemas.py`. -/
structure CritiqueItem where
  issue : String
  severity : String
  location : Option String
  recommendation : String
  deriving DecidableEq, Repr

/-- Schema `SafetyCritique` of `backend/agents/critic/schemas.py`. -/
structure SafetyCritique where
  approved : Bool
  issues : List CritiqueItem
  summary : String
  deriving DecidableEq, Repr

/-- Schema `ClinicalAccuracyCritique` of `backend/agents/critic/schemas.py`. -/
structure ClinicalAccuracyCritique where
  approved : Bool
  issues : List CritiqueItem
  evidence_gaps : List String
  summary : String
  deriving DecidableEq, Repr

/-- Schema `ToneEmpathyCritique` of `backend/agents/critic/schemas.py`.
`tone_score` is constrained to 1..10 by pydantic; a `Nat` here. -/
structure ToneEmpathyCritique where
  approved : Bool
  issues : List CritiqueItem
  tone_score : Nat
  summary : String
  deriving DecidableEq, Repr

/-- Schema `ConsolidatedCritique` of `backend/agents/critic/schemas.py`. -/
structure ConsolidatedCritique where
  overall_approved : Bool
  iteration : Nat
  safety : SafetyCritique
  clinical_accuracy : ClinicalAccuracyCritique
  tone_empathy : ToneEmpathyCritique
  final_summary : String
  action_items : List String
  deriving DecidableEq, Repr

/-- The `plan["safety_envelope"]` sub-document read by the safety critic. -/
structure SafetyEnvelope where
  forbidden_content : List String
  special_conditions : List String
  deriving DecidableEq, Repr

/-- The `plan["drafting_spec"]` sub-document. -/
structure DraftingSpec where
  required_fields : List String
  style_rules : List String
  deriving DecidableEq, Repr

/-- The `plan["critic_rubrics"]` sub-document. -/
structure CriticRubrics where
  clinical_accuracy : List String
  deriving DecidableEq, Repr

/-- The parsed plan document, restricted to the fields the critic
sub-pipeline reads. -/
structure Plan where
  exercise_type : String
  safety_envelope : SafetyEnvelope
  drafting_spec : DraftingSpec
  critic_rubrics : CriticRubrics
  deriving DecidableEq, Repr

/-- Sub-document `protocol_contract["mechanism_map"]` as read by the clinical critic. -/
structure MechanismMap where
  target_mechanisms : List String
  deriving DecidableEq, Repr

/-- The protocol contract handed from the draftsman to the critic. -/
structure ProtocolContract where
  mechanism_map : MechanismMap
  deriving DecidableEq, Repr

/-- An entry of `internal_messages`: a dict with keys `type` and
`content` (`backend/agents/critic/agent.py`). -/
structure InternalMessage where
  type : String
  content : String
  deriving DecidableEq, Repr

/-- State `CriticState` of `backend/agents/critic/state.py`, restricted to the
fields the critic nodes read and write. -/
structure CriticState where
  current_draft : String
  plan : Plan
  protocol_contract : Option ProtocolContract
  iteration : Nat
  safety_critique : Option SafetyCritique
  clinical_critique : Option ClinicalAccuracyCritique
  tone_critique : Option ToneEmpathyCritique
  consolidated_critique : Option ConsolidatedCritique
  approved : Bool
  internal_messages : List InternalMessage
  internal_scratchpad : String
  deriving DecidableEq, Repr

/-- Reducer `add_messages` of `backend/agents/critic/state.py`: list concat (the
`None` guards coerce `None` to `[]`; channel values here are never
`None`, so the reducer is plain concatenation). -/
def add_messages (left right : List InternalMessage) : List InternalMessage :=
  left ++ right

/-- Reducer `concat_strings` of `backend/agents/critic/state.py`: string concat
(the `None` guards coerce `None` to `""`). -/
def concat_strings (left right : String) : String :=
  left ++ right

/-- Fan-in merge of the `internal_messages` channel: LangGraph folds each
sibling update into the channel value with the declared reducer, in
completion order. -/
def merge_messages (init : List InternalMessage)
    (updates : List (List InternalMessage)) : List InternalMessage :=
  updates.foldl add_messages init

/-- Fan-in merge of the `internal_scratchpad` channel. -/
def merge_scratchpad (init : String) (updates : List String) : String :=
  updates.foldl concat_strings init

/-- Partial state update returned by one critic node: its critique slot
plus the two accumulator channels. -/
structure CriticNodeUpdate (α : Type) where
  critique : α
  internal_messages : List InternalMessage
  internal_scratchpad : String
  deriving DecidableEq, Repr

/-- The fallback critique of the safety critic error path
(`_safety_critic_node`, `except` branch): fail closed. -/
def safetyFailClosedCritique : SafetyCritique :=
  { approved := false
  , issues :=
      [ { issue := "Safety evaluation failed - requires manual review"
        , severity := "critical"
        , location := none
        , recommendation := "Manually verify draft safety before proceeding" } ]
  , summary := "Automatic safety evaluation failed. Manual review required." }

/-- The fallback critique of the clinical critic error path
(`_clinical_critic_node`, `except` branch): fail closed. -/
def clinicalFailClosedCritique : ClinicalAccuracyCritique :=
  { approved := false
  , issues :=
      [ { issue := "Clinical accuracy evaluation failed - requires manual review"
        , severity := "major"
        , location := none
        , recommendation := "Manually verify clinical accuracy before proceeding" } ]
  , evidence_gaps := []
  , summary := "Automatic clinical evaluation failed. Manual review required." }

/-- The fallback critique of the tone critic error path
(`_tone_critic_node`, `except` branch): fail open with a neutral score. -/
def toneFailOpenCritique : ToneEmpathyCritique :=
  { approved := true
  , issues := []
  , tone_score := 5
  , summary := "Tone evaluation encountered an error. Proceeding with caution." }

/-- Node `_safety_critic_node` of `backend/agents/critic/agent.py`. -/
def safety_critic_node (llm : Except String SafetyCritique)
    (state : CriticState) : CriticNodeUpdate SafetyCritique :=
  let existing_messages := state.internal_messages
  let existing_scratchpad := state.internal_scratchpad
  let forbidden_content := state.plan.safety_envelope.forbidden_content
  let special_conditions := state.plan.safety_envelope.special_conditions
  let user_prompt :=
    "## Draft to Evaluate:\n\n" ++ state.current_draft.take 1500
      ++ "...\n\nEvaluate this draft for safety issues. Be thorough and conservative."
  let new_messages : List InternalMessage :=
    [ { type := "SystemMessage"
      , content := "Safety Critic Prompt (truncated for display)" }
    , { type := "HumanMessage", content := user_prompt.take 500 ++ "..." } ]
  let scratchpad_entry :=
    "\n\n## 🛡️ Safety Critic Analysis\n"
      ++ "- Forbidden content checked: " ++ toString forbidden_content.length ++ " items\n"
      ++ "- Special conditions: " ++ toString special_conditions.length ++ " items\n"
  match llm with
  | .ok safety_critique =>
      let new_messages := new_messages ++
        [ { type := "AIMessage"
          , content :=
              "Safety Review: "
                ++ (if safety_critique.approved then "Approved" else "Issues Found")
                ++ "\n\nSummary: " ++ safety_critique.summary } ]
      let scratchpad_entry := scratchpad_entry
        ++ "- Result: "
        ++ (if safety_critique.approved then "✅ Approved" else "❌ Issues Found") ++ "\n"
        ++ "- Issues: " ++ toString safety_critique.issues.length ++ "\n"
        ++ "- Summary: " ++ safety_critique.summary ++ "\n"
      { critique := safety_critique
      , internal_messages := existing_messages ++ new_messages
      , internal_scratchpad := existing_scratchpad ++ scratchpad_entry }
  | .error e =>
      let scratchpad_entry := scratchpad_entry ++ "- ERROR: " ++ e ++ "\n"
      { critique := safetyFailClosedCritique
      , internal_messages := existing_messages ++ new_messages
      , internal_scratchpad := existing_scratchpad ++ scratchpad_entry }

/-- Node `_clinical_critic_node` of `backend/agents/critic/agent.py`. -/
def clinical_critic_node (llm : Except String ClinicalAccuracyCritique)
    (state : CriticState) : CriticNodeUpdate ClinicalAccuracyCritique :=
  let existing_messages := state.internal_messages
  let existing_scratchpad := state.internal_scratchpad
  let exercise_type := state.plan.exercise_type
  let required_components := state.plan.drafting_spec.required_fields
  let mechanism_goals :=
    match state.protocol_contract with
    | some pc => pc.mechanism_map.target_mechanisms
    | none => []
  let new_messages : List InternalMessage :=
    [ { type := "SystemMessage", content := "Clinical Accuracy Critic Prompt" }
    , { type := "HumanMessage"
      , content :=
          "Exercise: " ++ exercise_type ++ ", Components: "
            ++ toString required_components.length } ]
  let scratchpad_entry :=
    "\n\n## 🩺 Clinical Accuracy Critic Analysis\n"
      ++ "- Exercise type: " ++ exercise_type ++ "\n"
      ++ "- Required components: " ++ toString required_components.length ++ " items\n"
      ++ "- Mechanism goals: " ++ toString mechanism_goals.length ++ " targets\n"
  match llm with
  | .ok clinical_critique =>
      let new_messages := new_messages ++
        [ { type := "AIMessage"
          , content :=
              "Clinical Review: "
                ++ (if clinical_critique.approved then "Approved" else "Issues Found")
                ++ "\n\nSummary: " ++ clinical_critique.summary } ]
      let scratchpad_entry := scratchpad_entry
        ++ "- Result: "
        ++ (if clinical_critique.approved then "✅ Approved" else "❌ Issues Found") ++ "\n"
        ++ "- Issues: " ++ toString clinical_critique.issues.length ++ "\n"
        ++ "- Evidence gaps: " ++ toString clinical_critique.evidence_gaps.length ++ "\n"
        ++ "- Summary: " ++ clinical_critique.summary ++ "\n"
      { critique := clinical_critique
      , internal_messages := existing_messages ++ new_messages
      , internal_scratchpad := existing_scratchpad ++ scratchpad_entry }
  | .error e =>
      let scratchpad_entry := scratchpad_entry ++ "- ERROR: " ++ e ++ "\n"
      { critique := clinicalFailClosedCritique
      , internal_messages := existing_messages ++ new_messages
      , internal_scratchpad := existing_scratchpad ++ scratchpad_entry }

/-- Node `_tone_critic_node` of `backend/agents/critic/agent.py`. -/
def tone_critic_node (llm : Except String ToneEmpathyCritique)
    (state : CriticState) : CriticNodeUpdate ToneEmpathyCritique :=
  let existing_messages := state.internal_messages
  let existing_scratchpad := state.internal_scratchpad
  let style_rules := state.plan.drafting_spec.style_rules
  let new_messages : List InternalMessage :=
    [ { type := "SystemMessage", content := "Tone & Empathy Critic Prompt" }
    , { type := "HumanMessage"
      , content := "Style rules: " ++ toString style_rules.length ++ " items" } ]
  let scratchpad_entry :=
    "\n\n## 💚 Tone & Empathy Critic Analysis\n"
      ++ "- Style rules evaluated: " ++ toString style_rules.length ++ " items\n"
  match llm with
  | .ok tone_critique =>
      let new_messages := new_messages ++
        [ { type := "AIMessage"
          , content :=
              "Tone Review: "
                ++ (if tone_critique.approved then "Approved" else "Issues Found")
                ++ " (Score: " ++ toString tone_critique.tone_score ++ "/10)"
                ++ "\n\nSummary: " ++ tone_critique.summary } ]
      let scratchpad_entry := scratchpad_entry
        ++ "- Result: "
        ++ (if tone_critique.approved then "✅ Approved" else "❌ Issues Found") ++ "\n"
        ++ "- Tone score: " ++ toString tone_critique.tone_score ++ "/10\n"
        ++ "- Issues: " ++ toString tone_critique.issues.length ++ "\n"
        ++ "- Summary: " ++ tone_critique.summary ++ "\n"
      { critique := tone_critique
      , internal_messages := existing_messages ++ new_messages
      , internal_scratchpad := existing_scratchpad ++ scratchpad_entry }
  | .error e =>
      let scratchpad_entry := scratchpad_entry ++ "- ERROR: " ++ e ++ "\n"
      { critique := toneFailOpenCritique
      , internal_messages := existing_messages ++ new_messages
      , internal_scratchpad := existing_scratchpad ++ scratchpad_entry }

/-- Partial state update returned by the consolidator node. -/
structure ConsolidatorUpdate where
  consolidated_critique : ConsolidatedCritique
  approved : Bool
  deriving DecidableEq, Repr

/-- Node `_consolidator_node` of `backend/agents/critic/agent.py`. It runs after
the fan-in barrier, so the three critique slots are always populated; they
are therefore taken as arguments (in the source: `state.get(...)` followed
by `.get("approved", False)` on the stored dicts). On a successful
consolidation call, `overall_approved` and the whole consolidated document
are taken verbatim from the structured output; only the `except` fallback
recomputes the conjunction of the three `approved` flags. -/
def consolidator_node (llm : Except String ConsolidatedCritique)
    (safety : SafetyCritique) (clinical : ClinicalAccuracyCritique)
    (tone : ToneEmpathyCritique) (iteration : Nat) : ConsolidatorUpdate :=
  match llm with
  | .ok consolidated =>
      { consolidated_critique := consolidated
      , approved := consolidated.overall_approved }
  | .error _ =>
      let overall_approved := safety.approved && clinical.approved && tone.approved
      { consolidated_critique :=
          { overall_approved := overall_approved
          , iteration := iteration
          , safety := safety
          , clinical_accuracy := clinical
          , tone_empathy := tone
          , final_summary := "Automatic consolidation failed. Review individual critiques."
          , action_items := [] }
      , approved := overall_approved }

/-- The initial subgraph state built by `CriticAgent.invoke`. -/
def critic_initial_state (current_draft : String) (plan : Plan)
    (protocol_contract : Option ProtocolContract) (iteration : Nat) : CriticState :=
  { current_draft := current_draft
  , plan := plan
  , protocol_contract := protocol_contract
  , iteration := iteration
  , safety_critique := none
  , clinical_critique := none
  , tone_critique := none
  , consolidated_critique := none
  , approved := false
  , internal_messages := []
  , internal_scratchpad := "# Critic Agent Analysis - Iteration " ++ toString iteration ++ "\n" }

/-- Result of `CriticAgent.invoke` as consumed by the outer graph. -/
structure CriticResult where
  critique_approved : Bool
  reflection_iteration : Nat
  deriving DecidableEq, Repr

/-- Function `CriticAgent.invoke` of `backend/agents/critic/agent.py`: fan out the
three critic nodes from the same snapshot, fan in, run the consolidator,
and return `critique_approved` (the consolidator slot `approved`) together
with the unchanged `reflection_iteration`. -/
def critic_invoke (safetyLLM : Except String SafetyCritique)
    (clinicalLLM : Except String ClinicalAccuracyCritique)
    (toneLLM : Except String ToneEmpathyCritique)
    (consolidatorLLM : Except String ConsolidatedCritique)
    (current_draft : String) (plan : Plan)
    (protocol_contract : Option ProtocolContract) (iteration : Nat) : CriticResult :=
  let s0 := critic_initial_state current_draft plan protocol_contract iteration
  let su := safety_critic_node safetyLLM s0
  let cu := clinical_critic_node clinicalLLM s0
  let tu := tone_critic_node toneLLM s0
  let cons := consolidator_node consolidatorLLM su.critique cu.critique tu.critique iteration
  { critique_approved := cons.approved
  , reflection_iteration := iteration }

/-- The parsed classification JSON of the router (`result` after
`json.loads` in `RouterAgent.invoke`), with both keys optional. -/
structure RouterParsed where
  route : Option String
  response : Option String
  deriving DecidableEq, Repr

/-- Result of `RouterAgent.invoke`. -/
structure RouterResult where
  route : String
  router_response : String
  deriving DecidableEq, Repr

/-- Function `RouterAgent.invoke` of `backend/agents/router.py`, with JSON parsing
of the classification output modelled as an oracle: `.error e` is an
unparseable output (`json.JSONDecodeError` / `AttributeError`). -/
def router_invoke (parsed : Except String RouterParsed) : RouterResult :=
  match parsed with
  | .ok result =>
      { route := result.route.getD "planner"
      , router_response := result.response.getD "" }
  | .error _ =>
      { route := "planner", router_response := "" }

/-- An entry of `draft_versions` as built by the draftsman and reviser. -/
structure DraftVersion where
  version : Nat
  content : String
  timestamp : String
  status : String
  iteration : Nat
  changes : String
  deriving DecidableEq, Repr

/-- The top-level workflow state (`AgentState`), restricted to the fields
the embedded graph functions touch. The underlying object is a Python
dict: `none` models an absent key, and each source read
`state.get(k, d)` becomes `(s.k).getD d`. -/
structure AgentState where
  user_query : Option String := none
  route : Option String := none
  plan : Option String := none
  hitl_pending : Option Bool := none
  hitl_decision : Option String := none
  hitl_feedback : Option String := none
  plan_revision_count : Option Nat := none
  current_draft : Option String := none
  draft : Option String := none
  draft_versions : Option (List DraftVersion) := none
  reflection_iteration : Option Nat := none
  max_iterations : Option Nat := none
  critique_approved : Option Bool := none
  critique_document : Option String := none
  revision_notes : Option String := none
  deriving DecidableEq, Repr

/-- Constant `MAX_REFLECTION_ITERATIONS` of `backend/graph.py`. -/
def MAX_REFLECTION_ITERATIONS : Nat := 3

/-- Function `should_continue_reflection` of `backend/graph.py`. -/
def should_continue_reflection (state : AgentState) : String :=
  let critique_approved := state.critique_approved.getD false
  let reflection_iteration := state.reflection_iteration.getD 1
  let max_iterations := state.max_iterations.getD MAX_REFLECTION_ITERATIONS
  if critique_approved then "synthesizer"
  else if max_iterations ≤ reflection_iteration then "synthesizer"
  else "reviser"

/-- Function `route_after_approval` of `backend/graph.py`; `END` of LangGraph is the
string `"__end__"`. -/
def route_after_approval (state : AgentState) : String :=
  if state.hitl_decision = some "approved" then "draftsman"
  else if state.hitl_decision = some "revised" then "planner"
  else "__end__"

/-- The value supplied to `Command(resume=...)` and returned by
`interrupt()` inside `await_plan_approval`: either not a dict, or a dict
whose `decision` and `feedback` keys may each be absent. -/
inductive ResumeValue where
  | notDict : ResumeValue
  | dict (decision : Option String) (feedback : Option String) : ResumeValue
  deriving DecidableEq, Repr

/-- The pre-suspension side effect of `await_plan_approval`
(`backend/graph.py` lines 119-157): `emit_plan_pending_approval` fires iff
an emitter is available and `state.get("hitl_pending", False)` is falsy. -/
def await_plan_approval_emits (emitter_present : Bool) (state : AgentState) : Bool :=
  emitter_present && !(state.hitl_pending.getD false)

/-- The state checkpointed when `interrupt()` suspends the node: no partial
update is returned before the `interrupt()` call (`backend/graph.py` lines
153-165 document that LangGraph does not support one), so the checkpoint
carries the node-entry state unchanged. -/
def interrupt_checkpoint (state : AgentState) : AgentState := state

/-- The post-resume tail of `await_plan_approval` (`backend/graph.py` lines
167-185): decode the resume value and return the partial state update,
merged here into the state record (these four channels use the default
last-write merge). -/
def await_plan_approval_update (user_decision : ResumeValue)
    (state : AgentState) : AgentState :=
  let decision := match user_decision with
    | .dict d _ => d.getD "rejected"
    | .notDict => "rejected"
  let feedback := match user_decision with
    | .dict _ f => f.getD ""
    | .notDict => ""
  let revision_count := state.plan_revision_count.getD 0
  let revision_count := if decision = "revised" then revision_count + 1 else revision_count
  { state with
      hitl_pending := some false
      hitl_decision := some decision
      hitl_feedback := some feedback
      plan_revision_count := some revision_count }

/-- Number of `plan_pending_approval` emissions across one
suspend-then-resume cycle of `await_plan_approval`: the pre-suspension code
runs on first entry, the node suspends at `interrupt()`, and on resume the
whole node body re-executes from the top on the checkpointed state. -/
def await_plan_approval_suspend_resume_emissions (emitter_present : Bool)
    (state : AgentState) : Nat :=
  (if await_plan_approval_emits emitter_present state then 1 else 0)
    + (if await_plan_approval_emits emitter_present (interrupt_checkpoint state) then 1 else 0)

/-- The duplicate-event workaround of `stream_resumed_events`
(`backend/websocket_routes.py` lines 264-270): a `plan_pending_approval`
event received while resuming is skipped when the resume decision was
`approved` or `rejected`. -/
def resumed_stream_skips_pending_approval (decision : String) : Bool :=
  decision = "approved" || decision = "rejected"

/-- Result of `ReviserAgent.invoke` (`backend/agents/reviser/agent.py`). -/
structure ReviserResult where
  current_draft : String
  draft : String
  draft_versions : List DraftVersion
  reflection_iteration : Nat
  revision_notes : String
  deriving DecidableEq, Repr

/-- Function `ReviserAgent.invoke` of `backend/agents/reviser/agent.py`.
`revision_stream` is the accumulated streamed revision (empty when the
model streamed nothing, in which case the current draft is kept);
`summaryLLM` is the change-summary call, whose bare `except` falls back to
a fixed sentence; `now` is `datetime.now().isoformat()`. -/
def reviser_invoke (revision_stream : String) (summaryLLM : Except String String)
    (now : String) (state : AgentState) : ReviserResult :=
  let current_draft0 := state.current_draft.getD ""
  let current_draft := if current_draft0 = "" then state.draft.getD "" else current_draft0
  let iteration := state.reflection_iteration.getD 1
  let draft_versions := state.draft_versions.getD []
  let revised_draft := if revision_stream = "" then current_draft else revision_stream
  let revision_summary := match summaryLLM with
    | .ok content => content
    | .error _ => "Revision applied based on critique feedback."
  let new_version : DraftVersion :=
    { version := draft_versions.length + 1
    , content := revised_draft
    , timestamp := now
    , status := "revised"
    , iteration := iteration
    , changes := revision_summary }
  let updated_versions := draft_versions ++ [new_version]
  { current_draft := revised_draft
  , draft := revised_draft
  , draft_versions := updated_versions
  , reflection_iteration := iteration + 1
  , revision_notes := revision_summary }

/-- The initial `draft_versions` entry built by `DraftsmanAgent.invoke`. -/
def draftsman_initial_version (draft_markdown now : String) : DraftVersion :=
  { version := 1
  , content := draft_markdown
  , timestamp := now
  , status := "draft"
  , iteration := 0
  , changes := "Initial draft from Draftsman Agent" }

/-- The state after the `draftsman` node of the outer graph:
`DraftsmanAgent.invoke` returns the draft, `draft_versions` seeded with
version 1 and `reflection_iteration := 1`; `call_draftsman` then adds
`max_iterations := MAX_REFLECTION_ITERATIONS` because the result never
carries that key (`backend/graph.py` lines 65-73, draftsman lines 839-845). -/
def call_draftsman_update (draft_markdown now : String) (state : AgentState) : AgentState :=
  { state with
      draft := some draft_markdown
      current_draft := some draft_markdown
      draft_versions := some [draftsman_initial_version draft_markdown now]
      reflection_iteration := some 1
      max_iterations := some MAX_REFLECTION_ITERATIONS }

/-- The state after the `critic` node when the critics never approve (the
claim C2 stub): `CriticAgent.invoke` returns `critique_approved` and an
unchanged `reflection_iteration` (`backend/agents/critic/agent.py` lines
605-610), so under a never-approving stub the node only pins
`critique_approved := False`. -/
def call_critic_update_stub (state : AgentState) : AgentState :=
  { state with
      critique_approved := some false
      reflection_iteration := some (state.reflection_iteration.getD 1) }

/-- The state after the `reviser` node: merge `ReviserAgent.invoke`'s
partial update into the outer state. -/
def call_reviser_update (revision_stream : String) (summaryLLM : Except String String)
    (now : String) (state : AgentState) : AgentState :=
  let r := reviser_invoke revision_stream summaryLLM now state
  { state with
      current_draft := some r.current_draft
      draft := some r.draft
      draft_versions := some r.draft_versions
      reflection_iteration := some r.reflection_iteration
      revision_notes := some r.revision_notes }

/-- One reviser invocation's oracles: the streamed revision, the summary
call and the timestamp. -/
def ReviserOracles : Type := Nat → String × Except String String × String

/-- The critic-reviser loop of the outer graph under a critic stub that
never approves: run `critic`, record the iteration, route with
`should_continue_reflection`, and either exit to the synthesizer or run
`reviser` and loop. Returns `(reviser invocations, iteration trace, final
state)`; `none` when the fuel runs out before the loop exits. -/
def reflection_loop_never_approve (oracles : ReviserOracles) :
    Nat → AgentState → Nat → List Nat → Option (Nat × List Nat × AgentState)
  | 0, _, _, _ => none
  | Nat.succ fuel, state, reviser_invocations, trace =>
    let state1 := call_critic_update_stub state
    let trace1 := trace ++ [state1.reflection_iteration.getD 1]
    if should_continue_reflection state1 = "reviser" then
      let o := oracles reviser_invocations
      reflection_loop_never_approve oracles fuel
        (call_reviser_update o.1 o.2.1 o.2.2 state1) (reviser_invocations + 1) trace1
    else
      some (reviser_invocations, trace1, state1)

/-- A section spec of the frozen `exercise_skeleton` (the fields the
drafting loop reads). -/
structure SectionSpec where
  section_id : String
  purpose : String
  deriving DecidableEq, Repr

/-- The draftsman subgraph state, restricted to the section-drafting loop:
`drafted_sections` is an insertion-ordered dict, modelled as an
association list. -/
structure DraftsmanState where
  sections : List SectionSpec
  current_section_index : Nat
  iteration_count : Nat
  drafted_sections : List (String × String)
  deriving DecidableEq, Repr

/-- Python-dict insertion: overwrite in place when the key exists, append
otherwise. -/
def dict_insert (m : List (String × String)) (k v : String) : List (String × String) :=
  if m.any (fun p => p.1 = k) then
    m.map (fun p => if p.1 = k then (k, v) else p)
  else m ++ [(k, v)]

/-- Python-dict lookup (`k in m` plus `m[k]`). -/
def dict_lookup (m : List (String × String)) (k : String) : Option String :=
  (m.find? (fun p => p.1 = k)).map (fun p => p.2)

/-- Function `_should_continue_drafting` of `backend/agents/draftsman/agent.py`:
the safety limit of 20 iterations is checked first, then whether sections
remain. -/
def should_continue_drafting (state : DraftsmanState) : String :=
  if 20 ≤ state.iteration_count then "assemble"
  else if state.current_section_index < state.sections.length then "continue"
  else "assemble"

/-- Node `_section_draft_node` of `backend/agents/draftsman/agent.py`: draft
the section at `current_section_index` (or return no update when the index
is out of range), advancing the index and the iteration count; a failed
generation stores an explicit placeholder instead of aborting. -/
def section_draft_node (llm : Except String String) (state : DraftsmanState) : DraftsmanState :=
  match state.sections.get? state.current_section_index with
  | none => state
  | some current_section =>
    let content := match llm with
      | .ok c => c
      | .error _ => "[Content for " ++ current_section.section_id ++ " could not be generated]"
    { state with
        current_section_index := state.current_section_index + 1
        iteration_count := state.iteration_count + 1
        drafted_sections := dict_insert state.drafted_sections current_section.section_id content }

/-- The section-drafting loop as wired in `_build_graph`: `section_draft`
runs, then `_should_continue_drafting` either loops back or proceeds to the
assembler. Returns the state handed to `draft_assembler`, or `none` when
the fuel runs out first. -/
def drafting_loop (llms : Nat → Except String String) :
    Nat → DraftsmanState → Option DraftsmanState
  | 0, _ => none
  | Nat.succ fuel, state =>
    let state1 := section_draft_node (llms state.iteration_count) state
    if should_continue_drafting state1 = "continue" then drafting_loop llms fuel state1
    else some state1

/-- The initial subgraph state built by `DraftsmanAgent.invoke` (index 0,
iteration count 0, no drafted sections) once the skeleton is frozen. -/
def draftsman_loop_entry (sections : List SectionSpec) : DraftsmanState :=
  { sections := sections
  , current_section_index := 0
  , iteration_count := 0
  , drafted_sections := [] }

/-- The ordering pass of `_draft_assembler_node`: walk the skeleton in
order and keep each section that has been drafted (a pure function; missing
sections are simply skipped, so partial output assembles cleanly). -/
def draft_assembler_ordered_sections (state : DraftsmanState) : List (String × String) :=
  state.sections.foldl
    (fun acc s =>
      match dict_lookup state.drafted_sections s.section_id with
      | some c => dict_insert acc s.section_id c
      | none => acc)
    []

/-- The three sibling updates to the accumulator channels produced by one
parallel critic super-step, all computed from the same fan-out snapshot
(the initial subgraph state): for each node, its returned
`internal_messages` and `internal_scratchpad` values. -/
def critic_fanout_updates (sLLM : Except String SafetyCritique)
    (cLLM : Except String ClinicalAccuracyCritique)
    (tLLM : Except String ToneEmpathyCritique)
    (draft : String) (plan : Plan) (pc : Option ProtocolContract)
    (iteration : Nat) : List (List InternalMessage × String) :=
  let s0 := critic_initial_state draft plan pc iteration
  [ ((safety_critic_node sLLM s0).internal_messages,
     (safety_critic_node sLLM s0).internal_scratchpad)
  , ((clinical_critic_node cLLM s0).internal_messages,
     (clinical_critic_node cLLM s0).internal_scratchpad)
  , ((tone_critic_node tLLM s0).internal_messages,
     (tone_critic_node tLLM s0).internal_scratchpad) ]

/-- A small concrete plan used for concrete evaluations. -/
def examplePlan : Plan :=
  { exercise_type := "Graded Exposure Hierarchy"
  , safety_envelope :=
      { forbidden_content := ["flooding"], special_conditions := ["pacing reminder"] }
  , drafting_spec :=
      { required_fields := ["steps"], style_rules := ["supportive tone"] }
  , critic_rubrics := { clinical_accuracy := ["SUDS progression"] } }

/-- A safety verdict that rejects the draft. -/
def exRejectedSafety : SafetyCritique :=
  { approved := false, issues := [], summary := "unsafe" }

/-- A clinical verdict that rejects the draft. -/
def exRejectedClinical : ClinicalAccuracyCritique :=
  { approved := false, issues := [], evidence_gaps := [], summary := "inaccurate" }

/-- A tone verdict that rejects the draft. -/
def exRejectedTone : ToneEmpathyCritique :=
  { approved := false, issues := [], tone_score := 3, summary := "cold" }

/-- A consolidator structured output whose `overall_approved` flag is not
the conjunction of the three stored verdicts; neither the schema nor
`_consolidator_node` validates the flag against them. -/
def exAdversarialConsolidated : ConsolidatedCritique :=
  { overall_approved := true
  , iteration := 1
  , safety := exRejectedSafety
  , clinical_accuracy := exRejectedClinical
  , tone_empathy := exRejectedTone
  , final_summary := "All good."
  , action_items := [] }

/-- Concrete reviser oracles for concrete loop evaluations. -/
def exReviserOracles : ReviserOracles :=
  fun _ => ("revised", Except.error "summary failed", "t")

/-- A concrete state as produced by the draftsman followed by one critic
pass: one draft version, iteration 1. -/
def exReviserState : AgentState :=
  { draft_versions := some [draftsman_initial_version "d" "t"]
  , reflection_iteration := some 1 }

/-- A concrete state as it reaches `await_plan_approval` for the first
time: the planner wrote `plan`; no write to `hitl_pending` has ever
happened. -/
def exPlannerState : AgentState :=
  { plan := some "plan-json" }

/-- Concrete fan-out updates: all three critic calls fail. -/
def exFanoutUpdates : List (List InternalMessage × String) :=
  critic_fanout_updates (.error "down") (.error "down") (.error "down")
    "draft" examplePlan none 1

/-- The fan-out snapshot matching `exFanoutUpdates`. -/
def exFanoutInit : CriticState :=
  critic_initial_state "draft" examplePlan none 1

/-- Anything already in the channel stays in it after folding in updates. -/
theorem mem_merge_messages_init {m : InternalMessage} {init : List InternalMessage}
    (hm : m ∈ init) (updates : List (List InternalMessage)) :
    m ∈ merge_messages init updates := by
  induction updates generalizing init with
  | nil => exact hm
  | cons x xs ih =>
    simp only [merge_messages, List.foldl_cons] at *
    exact ih (by simp [add_messages, hm])

/-- No lost updates: every message of every folded-in update is in the
merged channel value. -/
theorem mem_merge_messages {u : List InternalMessage} {updates : List (List InternalMessage)}
    (hu : u ∈ updates) {m : InternalMessage} (hm : m ∈ u) (init : List InternalMessage) :
    m ∈ merge_messages init updates := by
  induction updates generalizing init with
  | nil => cases hu
  | cons x xs ih =>
    simp only [merge_messages, List.foldl_cons] at *
    rcases List.mem_cons.mp hu with h | h
    · subst h
      exact mem_merge_messages_init (by simp [add_messages, hm]) xs
    · exact ih h _

/-- The merged channel length is the initial length plus the lengths of
all folded-in updates. -/
theorem length_merge_messages (init : List InternalMessage)
    (updates : List (List InternalMessage)) :
    (merge_messages init updates).length = init.length + (updates.map List.length).sum := by
  induction updates generalizing init with
  | nil => simp [merge_messages]
  | cons x xs ih =>
    simp only [merge_messages, List.foldl_cons] at *
    rw [ih]
    simp [add_messages]
    omega

/-- Folding scratchpad updates only ever extends the channel value. -/
theorem merge_scratchpad_eq_append (init : String) (updates : List String) :
    ∃ t, merge_scratchpad init updates = init ++ t := by
  induction updates generalizing init with
  | nil => exact ⟨"", by simp [merge_scratchpad]⟩
  | cons x xs ih =>
    simp only [merge_scratchpad, List.foldl_cons] at *
    obtain ⟨t, ht⟩ := ih (concat_strings init x)
    exact ⟨x ++ t, by rw [ht]; simp [concat_strings, String.append_assoc]⟩

/-- No lost updates on the scratchpad channel: every folded-in fragment
occurs verbatim inside the merged string. -/
theorem merge_scratchpad_infix {u : String} {updates : List String}
    (hu : u ∈ updates) (init : String) :
    ∃ a b, merge_scratchpad init updates = a ++ (u ++ b) := by
  induction updates generalizing init with
  | nil => cases hu
  | cons x xs ih =>
    simp only [merge_scratchpad, List.foldl_cons] at *
    rcases List.mem_cons.mp hu with h | h
    · subst h
      obtain ⟨t, ht⟩ := merge_scratchpad_eq_append (concat_strings init u) xs
      refine ⟨init, t, ?_⟩
      simp only [merge_scratchpad] at ht
      rw [ht]
      simp [concat_strings, String.append_assoc]
    · exact ih h _

/-- Consecutive iteration values are non-decreasing. -/
theorem chain_le_range' (s n : Nat) : List.Chain' (· ≤ ·) (List.range' s n) := by
  have h := (List.pairwise_lt_range' s n 1 (by omega)).imp (fun {a b} h => Nat.le_of_lt h)
  exact h.chain'

/-- Python-dict insertion adds the bound pair or keeps an existing one. -/
theorem mem_dict_insert {m : List (String × String)} {k v : String}
    {p : String × String} (hp : p ∈ dict_insert m k v) : p = (k, v) ∨ p ∈ m := by
  unfold dict_insert at hp
  split at hp
  · obtain ⟨q, hq, hfq⟩ := List.mem_map.mp hp
    by_cases h : q.1 = k
    · left
      rw [← hfq]
      simp [h]
    · right
      rw [← hfq]
      simp only [h, if_false]
      exact hq
  · rcases List.mem_append.mp hp with h | h
    · right; exact h
    · left; simpa using h

/-- Every pair the assembler emits is a drafted section. -/
theorem assembler_sections_drafted (state : DraftsmanState) :
    ∀ p ∈ draft_assembler_ordered_sections state,
      dict_lookup state.drafted_sections p.1 = some p.2 := by
  unfold draft_assembler_ordered_sections
  have key : ∀ (l : List SectionSpec) (acc : List (String × String)),
      (∀ p ∈ acc, dict_lookup state.drafted_sections p.1 = some p.2) →
      ∀ p ∈ l.foldl
          (fun acc s =>
            match dict_lookup state.drafted_sections s.section_id with
            | some c => dict_insert acc s.section_id c
            | none => acc)
          acc,
        dict_lookup state.drafted_sections p.1 = some p.2 := by
    intro l
    induction l with
    | nil => intro acc hacc p hp; exact hacc p hp
    | cons s l ih =>
      intro acc hacc p hp
      simp only [List.foldl_cons] at hp
      refine ih _ ?_ p hp
      intro q hq
      rcases hlook : dict_lookup state.drafted_sections s.section_id with _ | c
      · rw [hlook] at hq
        exact hacc q hq
      · rw [hlook] at hq
        rcases mem_dict_insert hq with h | h
        · rw [h]
          exact hlook
        · exact hacc q h
  exact key state.sections [] (by intro p hp; cases hp)

/-- Routing of the reflection loop under a never-approving critic stub. -/
theorem should_continue_reflection_stub (state : AgentState) (it maxIt : Nat)
    (hit : state.reflection_iteration = some it)
    (hmax : state.max_iterations = some maxIt) :
    should_continue_reflection (call_critic_update_stub state)
      = if maxIt ≤ it then "synthesizer" else "reviser" := by
  simp [should_continue_reflection, call_critic_update_stub, hit, hmax]

/-- Behaviour of the critic-reviser loop under a never-approving critic
stub: starting at iteration `it` with `max_iterations = it + k`, the loop
exits to the synthesizer after `k` reviser invocations, visiting the
iteration values `it, it+1, ..., it+k` in order, and `k + 1` units of fuel
(critic super-steps) suffice. -/
theorem reflection_loop_spec (oracles : ReviserOracles) (k : Nat) :
    ∀ (it r : Nat) (trace : List Nat) (state : AgentState),
      state.reflection_iteration = some it →
      state.max_iterations = some (it + k) →
      ∃ fs, reflection_loop_never_approve oracles (k + 1) state r trace
              = some (r + k, trace ++ List.range' it (k + 1), fs)
            ∧ should_continue_reflection fs = "synthesizer" := by
  induction k with
  | zero =>
    intro it r trace state hit hmax
    refine ⟨call_critic_update_stub state, ?_, ?_⟩
    · have hroute := should_continue_reflection_stub state it it hit (by simpa using hmax)
      rw [if_pos (le_refl it)] at hroute
      have htr : (call_critic_update_stub state).reflection_iteration.getD 1 = it := by
        simp [call_critic_update_stub, hit]
      simp only [reflection_loop_never_approve, hroute, htr]
      simp
    · have hroute := should_continue_reflection_stub state it it hit (by simpa using hmax)
      rw [if_pos (le_refl it)] at hroute
      exact hroute
  | succ k ih =>
    intro it r trace state hit hmax
    have hroute := should_continue_reflection_stub state it (it + (k + 1)) hit hmax
    rw [if_neg (by omega)] at hroute
    have htr : (call_critic_update_stub state).reflection_iteration.getD 1 = it := by
      simp [call_critic_update_stub, hit]
    have hit2 : (call_reviser_update (oracles r).1 (oracles r).2.1 (oracles r).2.2
        (call_critic_update_stub state)).reflection_iteration = some (it + 1) := by
      simp [call_reviser_update, reviser_invoke, call_critic_update_stub, hit]
    have hmax2 : (call_reviser_update (oracles r).1 (oracles r).2.1 (oracles r).2.2
        (call_critic_update_stub state)).max_iterations = some ((it + 1) + k) := by
      have h1 : (call_reviser_update (oracles r).1 (oracles r).2.1 (oracles r).2.2
          (call_critic_update_stub state)).max_iterations = state.max_iterations := by
        simp [call_reviser_update, call_critic_update_stub]
      rw [h1, hmax]
      congr 1
      omega
    obtain ⟨fs, hrun, hfs⟩ := ih (it + 1) (r + 1) (trace ++ [it]) _ hit2 hmax2
    refine ⟨fs, ?_, hfs⟩
    have step1 : reflection_loop_never_approve oracles (k + 1 + 1) state r trace
        = reflection_loop_never_approve oracles (k + 1)
            (call_reviser_update (oracles r).1 (oracles r).2.1 (oracles r).2.2
              (call_critic_update_stub state)) (r + 1) (trace ++ [it]) := by
      conv_lhs => rw [reflection_loop_never_approve]
      simp only [htr, hroute]
      simp
    rw [step1, hrun]
    congr 2
    · omega
    · simp [List.range'_succ]

/-- The drafting loop always reaches the assembler: `fuel` super-steps
suffice whenever `iteration_count + fuel` clears the ceiling of 20, because
every `continue` decision is preceded by a step that incremented
`iteration_count`. -/
theorem drafting_loop_total (llms : Nat → Except String String) :
    ∀ (fuel : Nat) (state : DraftsmanState),
      1 ≤ fuel → 21 ≤ state.iteration_count + fuel →
      (drafting_loop llms fuel state).isSome := by
  intro fuel
  induction fuel with
  | zero =>
    intro state h1 _
    omega
  | succ fuel ih =>
    intro state _ hcount
    simp only [drafting_loop]
    set s1 := section_draft_node (llms state.iteration_count) state with hs1
    by_cases hroute : should_continue_drafting s1 = "continue"
    · rw [if_pos hroute]
      have h20 : s1.iteration_count < 20 ∧ s1.current_section_index < s1.sections.length := by
        unfold should_continue_drafting at hroute
        split_ifs at hroute with h1 h2
        · exact absurd hroute (by decide)
        · exact ⟨by omega, h2⟩
        · exact absurd hroute (by decide)
      have hstep : s1.iteration_count = state.iteration_count + 1 := by
        rcases hsec : state.sections.get? state.current_section_index with _ | sec
        · exfalso
          have hs1state : s1 = state := by
            rw [hs1]
            simp only [section_draft_node, hsec]
          have hlen : state.sections.length ≤ state.current_section_index :=
            List.get?_eq_none.mp hsec
          rw [hs1state] at h20
          omega
        · rw [hs1]
          simp only [section_draft_node, hsec]
      apply ih
      · omega
      · omega
    · rw [if_neg hroute]
      simp

/-- C1 (counterexample): the claim "the consolidated result's
`overall_approved` flag is true iff all three individual `approved` flags
are true" is false on the code at this concrete input: all three critic
verdicts reject the draft, yet the consolidator call succeeds with a
structured output whose `overall_approved` is true, and that flag is
returned verbatim as `critique_approved` — nothing recomputes or validates
it against the three flags. -/
theorem c1_counterexample :
    (critic_invoke (.ok exRejectedSafety) (.ok exRejectedClinical) (.ok exRejectedTone)
        (.ok exAdversarialConsolidated) "draft" examplePlan none 1).critique_approved
      ≠ (exRejectedSafety.approved && exRejectedClinical.approved && exRejectedTone.approved) := by
  decide

/-- C1 (amended): when the consolidation call fails and the fallback runs,
`overall_approved` is the conjunction of the three individual `approved`
flags — for every combination of the three verdicts, hence all 8 boolean
combinations — and that value is what `CriticAgent.invoke` returns as
`critique_approved`; when the consolidation call succeeds,
`overall_approved` is taken verbatim from the structured output. -/
theorem c1_amended :
    (∀ (safety : SafetyCritique) (clinical : ClinicalAccuracyCritique)
       (tone : ToneEmpathyCritique) (e : String) (iteration : Nat),
        (consolidator_node (.error e) safety clinical tone iteration).approved
            = (safety.approved && clinical.approved && tone.approved)
        ∧ (consolidator_node (.error e) safety clinical tone
              iteration).consolidated_critique.overall_approved
            = (safety.approved && clinical.approved && tone.approved))
    ∧ (∀ (c : ConsolidatedCritique) (safety : SafetyCritique)
         (clinical : ClinicalAccuracyCritique) (tone : ToneEmpathyCritique)
         (iteration : Nat),
        (consolidator_node (.ok c) safety clinical tone iteration).approved
          = c.overall_approved)
    ∧ (∀ (sLLM : Except String SafetyCritique)
         (cLLM : Except String ClinicalAccuracyCritique)
         (tLLM : Except String ToneEmpathyCritique)
         (e draft : String) (plan : Plan) (pc : Option ProtocolContract) (iteration : Nat),
        (critic_invoke sLLM cLLM tLLM (.error e) draft plan pc iteration).critique_approved
          = ((safety_critic_node sLLM (critic_initial_state draft plan pc iteration)).critique.approved
              && (clinical_critic_node cLLM (critic_initial_state draft plan pc iteration)).critique.approved
              && (tone_critic_node tLLM (critic_initial_state draft plan pc iteration)).critique.approved)) :=
  ⟨fun _ _ _ _ _ => ⟨rfl, rfl⟩, fun _ _ _ _ _ => rfl, fun _ _ _ _ _ _ _ _ => rfl⟩

/-- C4: on an internal error of the evaluator call, the safety critic
fails closed with exactly one critical issue, the clinical critic fails
closed with exactly one major issue demanding manual review, and the tone
critic fails open with a neutral score of 5 and no issues — for every
state and error. -/
theorem c4_evaluator_failure_policy :
    ∀ (e : String) (state : CriticState),
      ((safety_critic_node (.error e) state).critique = safetyFailClosedCritique
        ∧ safetyFailClosedCritique.approved = false
        ∧ safetyFailClosedCritique.issues.length = 1
        ∧ safetyFailClosedCritique.issues.map (fun i => i.severity) = ["critical"])
      ∧ ((clinical_critic_node (.error e) state).critique = clinicalFailClosedCritique
        ∧ clinicalFailClosedCritique.approved = false
        ∧ clinicalFailClosedCritique.issues.length = 1
        ∧ clinicalFailClosedCritique.issues.map (fun i => i.severity) = ["major"])
      ∧ ((tone_critic_node (.error e) state).critique = toneFailOpenCritique
        ∧ toneFailOpenCritique.approved = true
        ∧ toneFailOpenCritique.tone_score = 5
        ∧ toneFailOpenCritique.issues = []) :=
  fun _ _ =>
    ⟨⟨rfl, rfl, rfl, rfl⟩, ⟨rfl, rfl, rfl, rfl⟩, ⟨rfl, rfl, rfl, rfl⟩⟩

/-- C8: whenever the router classification output is unparseable, the
router falls open to the planner route with an empty direct response. -/
theorem c8_router_fail_open :
    ∀ e : String, router_invoke (.error e) = { route := "planner", router_response := "" } :=
  fun _ => rfl

/-- C7: after the resume value is decoded by `await_plan_approval`, the
decision `approved` routes to the draftsman with `plan_revision_count`
unchanged; `revised` routes to the planner with `plan_revision_count`
incremented by one and the feedback carried into `hitl_feedback`;
`rejected` or any other decision value routes to the terminal `END`. -/
theorem c7_route_after_approval :
    (∀ (s : AgentState) (f : Option String),
        route_after_approval (await_plan_approval_update (.dict (some "approved") f) s)
            = "draftsman"
        ∧ (await_plan_approval_update (.dict (some "approved") f) s).plan_revision_count
            = some (s.plan_revision_count.getD 0))
    ∧ (∀ (s : AgentState) (fb : String),
        route_after_approval (await_plan_approval_update (.dict (some "revised") (some fb)) s)
            = "planner"
        ∧ (await_plan_approval_update (.dict (some "revised") (some fb)) s).plan_revision_count
            = some (s.plan_revision_count.getD 0 + 1)
        ∧ (await_plan_approval_update (.dict (some "revised") (some fb)) s).hitl_feedback
            = some fb)
    ∧ (∀ (s : AgentState) (f : Option String) (d : String),
        d ≠ "approved" → d ≠ "revised" →
        route_after_approval (await_plan_approval_update (.dict (some d) f) s) = "__end__") := by
  refine ⟨fun s f => ⟨?_, ?_⟩, fun s fb => ⟨?_, ?_, ?_⟩, fun s f d hd1 hd2 => ?_⟩
  · simp [route_after_approval, await_plan_approval_update]
  · simp [await_plan_approval_update]
  · simp [route_after_approval, await_plan_approval_update]
  · simp [await_plan_approval_update]
  · simp [await_plan_approval_update]
  · simp [route_after_approval, await_plan_approval_update, hd1, hd2]

/-- C7 (witness): a concrete unknown decision value routes to `END`. -/
theorem c7_witness :
    route_after_approval (await_plan_approval_update (.dict (some "rejected") none) {}) = "__end__" :=
  c7_route_after_approval.2.2 {} none "rejected" (by decide) (by decide)

/-- C10 (counterexample): the claim says a resume value that is a dict
lacking the `decision` key defaults to decision `rejected` "with empty
feedback"; but a dict lacking `decision` while carrying `feedback` keeps
that feedback in `hitl_feedback`, which is then not empty. -/
theorem c10_counterexample :
    (await_plan_approval_update (.dict none (some "please soften the tone")) {}).hitl_feedback
      ≠ some "" := by
  decide

/-- C10 (amended): when `await_plan_approval` is resumed with a value that
is not a dict, the decision defaults to `rejected` with empty feedback;
with a dict lacking the `decision` key, the decision defaults to
`rejected` and the feedback defaults to the dict's `feedback` value (empty
only when that key is also absent); in both cases the run routes to `END`
(never to the draftsman) and `plan_revision_count` is not incremented. -/
theorem c10_amended :
    (∀ s : AgentState,
        (await_plan_approval_update .notDict s).hitl_decision = some "rejected"
        ∧ (await_plan_approval_update .notDict s).hitl_feedback = some ""
        ∧ (await_plan_approval_update .notDict s).plan_revision_count
            = some (s.plan_revision_count.getD 0)
        ∧ route_after_approval (await_plan_approval_update .notDict s) = "__end__")
    ∧ (∀ (s : AgentState) (fb : Option String),
        (await_plan_approval_update (.dict none fb) s).hitl_decision = some "rejected"
        ∧ (await_plan_approval_update (.dict none fb) s).hitl_feedback = some (fb.getD "")
        ∧ (await_plan_approval_update (.dict none fb) s).plan_revision_count
            = some (s.plan_revision_count.getD 0)
        ∧ route_after_approval (await_plan_approval_update (.dict none fb) s) = "__end__") := by
  refine ⟨fun s => ⟨?_, ?_, ?_, ?_⟩, fun s fb => ⟨?_, ?_, ?_, ?_⟩⟩
  · simp [await_plan_approval_update]
  · simp [await_plan_approval_update]
  · simp [await_plan_approval_update]
  · simp [route_after_approval, await_plan_approval_update]
  · simp [await_plan_approval_update]
  · simp [await_plan_approval_update]
  · simp [await_plan_approval_update]
  · simp [route_after_approval, await_plan_approval_update]

/-- C3 (counterexample): at a concrete state reaching the interrupt node
for the first time with an emitter present, one suspend-then-resume cycle
emits `plan_pending_approval` twice — the pre-suspension code re-executes
on re-entry and its `hitl_pending` guard never fires, because no state
update sets `hitl_pending` before `interrupt()` suspends — contradicting
the claimed side-effect idempotency (which would give one emission). -/
theorem c3_counterexample :
    await_plan_approval_suspend_resume_emissions true exPlannerState = 2 ∧ 2 ≠ 1 := by
  decide

/-- C3 (amended): re-entering `await_plan_approval` on resume re-emits the
`plan_pending_approval` side effect whenever the emitter is present: the
checkpointed state at suspension never has `hitl_pending = True` (it is
either absent or `False`, the only value the node ever writes), so the
guard cannot fire and a suspend-resume cycle emits twice. The duplicate is
instead suppressed downstream: `stream_resumed_events` skips
`plan_pending_approval` events when the resume decision was `approved` or
`rejected` (and not when it was `revised`). -/
theorem c3_amended :
    (∀ s : AgentState,
        await_plan_approval_suspend_resume_emissions true { s with hitl_pending := none } = 2
        ∧ await_plan_approval_suspend_resume_emissions true
            { s with hitl_pending := some false } = 2)
    ∧ (∀ (v : ResumeValue) (s : AgentState),
        (await_plan_approval_update v s).hitl_pending = some false)
    ∧ resumed_stream_skips_pending_approval "approved" = true
    ∧ resumed_stream_skips_pending_approval "rejected" = true
    ∧ resumed_stream_skips_pending_approval "revised" = false := by
  refine ⟨fun s => ⟨?_, ?_⟩, fun v s => ?_, by decide, by decide, by decide⟩
  · simp [await_plan_approval_suspend_resume_emissions, await_plan_approval_emits,
      interrupt_checkpoint]
  · simp [await_plan_approval_suspend_resume_emissions, await_plan_approval_emits,
      interrupt_checkpoint]
  · simp [await_plan_approval_update]

/-- C5: every reviser invocation appends exactly one new entry to
`draft_versions`, leaving every previously present entry unchanged; the
new entry's version is `length + 1`, which under the run invariant (every
stored version is at most the list length, as holds for the
draftsman-seeded `1, 2, ..., n` numbering) is strictly greater than every
existing version; and `reflection_iteration` is incremented by exactly
one. -/
theorem c5_reviser_appends (revision_stream : String) (summaryLLM : Except String String)
    (now : String) (state : AgentState)
    (h : ∀ v ∈ state.draft_versions.getD [],
        v.version ≤ (state.draft_versions.getD []).length) :
    (reviser_invoke revision_stream summaryLLM now state).draft_versions
        = state.draft_versions.getD []
          ++ [{ version := (state.draft_versions.getD []).length + 1
              , content := (reviser_invoke revision_stream summaryLLM now state).current_draft
              , timestamp := now
              , status := "revised"
              , iteration := state.reflection_iteration.getD 1
              , changes := (reviser_invoke revision_stream summaryLLM now state).revision_notes }]
      ∧ (∀ v ∈ state.draft_versions.getD [],
          v.version < (state.draft_versions.getD []).length + 1)
      ∧ (reviser_invoke revision_stream summaryLLM now state).reflection_iteration
          = state.reflection_iteration.getD 1 + 1 := by
  refine ⟨rfl, fun v hv => ?_, rfl⟩
  have := h v hv
  omega

/-- C5 (witness): the concrete post-draftsman state with one version. -/
theorem c5_witness :
    (reviser_invoke "r" (.ok "sum") "t2" exReviserState).draft_versions
      = exReviserState.draft_versions.getD []
        ++ [{ version := (exReviserState.draft_versions.getD []).length + 1
            , content := (reviser_invoke "r" (.ok "sum") "t2" exReviserState).current_draft
            , timestamp := "t2"
            , status := "revised"
            , iteration := exReviserState.reflection_iteration.getD 1
            , changes := (reviser_invoke "r" (.ok "sum") "t2" exReviserState).revision_notes }] :=
  (c5_reviser_appends "r" (.ok "sum") "t2" exReviserState (by decide)).1

/-- C2 (counterexample): with the default `max_iterations = 3` (as set
after the draftsman) and critics that never approve, the run exits to the
synthesizer after exactly 2 reviser invocations — not the claimed
`max_iterations = 3` — because `reflection_iteration` starts at 1 and the
loop exits as soon as it reaches `max_iterations`. -/
theorem c2_counterexample :
    (reflection_loop_never_approve exReviserOracles 10
        (call_draftsman_update "d" "t" {}) 0 []).map (fun p => p.1) = some 2
      ∧ 2 ≠ MAX_REFLECTION_ITERATIONS := by
  constructor
  · rfl
  · decide

/-- C2 (amended): for every `max_iterations = m + 1` and any reviser
oracles, a run whose critics never approve keeps `reflection_iteration`
non-decreasing (it visits exactly `1, 2, ..., m + 1` in order) and reaches
the synthesizer within `max_iterations` critique super-steps, with exactly
`max_iterations - 1 = m` reviser invocations before the forced exit. -/
theorem c2_amended (oracles : ReviserOracles) (m : Nat) (draft now : String)
    (s : AgentState) :
    ∃ fs, reflection_loop_never_approve oracles (m + 1)
            { call_draftsman_update draft now s with max_iterations := some (m + 1) } 0 []
            = some (m, List.range' 1 (m + 1), fs)
          ∧ should_continue_reflection fs = "synthesizer"
          ∧ List.Chain' (· ≤ ·) (List.range' 1 (m + 1)) := by
  have hit : ({ call_draftsman_update draft now s with
      max_iterations := some (m + 1) } : AgentState).reflection_iteration = some 1 := by
    simp [call_draftsman_update]
  have hmax : ({ call_draftsman_update draft now s with
      max_iterations := some (m + 1) } : AgentState).max_iterations = some (1 + m) := by
    simp [Nat.add_comm]
  obtain ⟨fs, hrun, hfs⟩ := reflection_loop_spec oracles m 1 0 [] _ hit hmax
  refine ⟨fs, ?_, hfs, chain_le_range' 1 (m + 1)⟩
  simpa using hrun

/-- C9: the section-drafting loop's decision function returns `continue`
exactly while sections remain and the hard ceiling of 20 completed
iterations has not been reached, and `assemble` otherwise; from the
subgraph's entry state the loop always reaches the assembler within 21
super-steps for every sequence of per-section outcomes (including
failures, which yield placeholders rather than aborting); and the
assembler is a pure ordering pass whose every emitted section is a drafted
section, so partial output still assembles. -/
theorem c9_drafting_loop :
    (∀ state : DraftsmanState,
        should_continue_drafting state = "continue"
          ↔ (state.current_section_index < state.sections.length
              ∧ state.iteration_count < 20))
    ∧ (∀ (llms : Nat → Except String String) (sections : List SectionSpec),
        (drafting_loop llms 21 (draftsman_loop_entry sections)).isSome)
    ∧ (∀ state : DraftsmanState,
        (draft_assembler_ordered_sections state).all
          (fun p => dict_lookup state.drafted_sections p.1 == some p.2) = true) := by
  refine ⟨fun state => ?_, fun llms sections => ?_, fun state => ?_⟩
  · unfold should_continue_drafting
    split_ifs with h1 h2
    · constructor
      · intro h
        exact absurd h (by decide)
      · intro h
        omega
    · constructor
      · intro _
        exact ⟨h2, by omega⟩
      · intro _
        rfl
    · constructor
      · intro h
        exact absurd h (by decide)
      · intro h
        exact absurd h.1 h2
  · exact drafting_loop_total llms 21 (draftsman_loop_entry sections) (by omega)
      (by simp [draftsman_loop_entry])
  · rw [List.all_eq_true]
    intro p hp
    rw [beq_iff_eq]
    exact assembler_sections_drafted state p hp

/-- C6: when the three concurrent critic sub-stages' partial updates are
folded into the accumulator channels by the declared reducers in any
completion order (any permutation of the three updates), the merged
`internal_messages` contains every message contributed by each critic and
its length is the snapshot length plus the three contributions' lengths
(no lost updates), the merged `internal_scratchpad` contains each critic's
scratchpad fragment verbatim, and — as in the spec's test instantiation —
with one message per critic the merged list has length 3. -/
theorem c6_fan_in_no_lost_updates (sLLM : Except String SafetyCritique)
    (cLLM : Except String ClinicalAccuracyCritique)
    (tLLM : Except String ToneEmpathyCritique)
    (draft : String) (plan : Plan) (pc : Option ProtocolContract) (iteration : Nat)
    (order : List (List InternalMessage × String))
    (h : order.Perm (critic_fanout_updates sLLM cLLM tLLM draft plan pc iteration)) :
    (∀ u ∈ critic_fanout_updates sLLM cLLM tLLM draft plan pc iteration,
        (∀ m ∈ u.1,
            m ∈ merge_messages (critic_initial_state draft plan pc iteration).internal_messages
                  (order.map Prod.fst))
        ∧ ∃ a b, merge_scratchpad
              (critic_initial_state draft plan pc iteration).internal_scratchpad
              (order.map Prod.snd) = a ++ (u.2 ++ b))
    ∧ (merge_messages (critic_initial_state draft plan pc iteration).internal_messages
          (order.map Prod.fst)).length
        = (critic_initial_state draft plan pc iteration).internal_messages.length
          + ((critic_fanout_updates sLLM cLLM tLLM draft plan pc iteration).map
              (fun u => u.1.length)).sum
    ∧ (∀ (m₁ m₂ m₃ : InternalMessage) (ord : List (List InternalMessage)),
        ord.Perm [[m₁], [m₂], [m₃]] → (merge_messages [] ord).length = 3) := by
  refine ⟨fun u hu => ⟨fun m hm => ?_, ?_⟩, ?_, fun m₁ m₂ m₃ ord hord => ?_⟩
  · have hu1 : u ∈ order := (h.mem_iff).mpr hu
    exact mem_merge_messages (List.mem_map_of_mem Prod.fst hu1) hm _
  · have hu1 : u ∈ order := (h.mem_iff).mpr hu
    exact merge_scratchpad_infix (List.mem_map_of_mem Prod.snd hu1) _
  · rw [length_merge_messages]
    congr 1
    have hperm : (order.map Prod.fst).map List.length
        |>.Perm (((critic_fanout_updates sLLM cLLM tLLM draft plan pc iteration).map
            Prod.fst).map List.length) := (h.map Prod.fst).map List.length
    rw [hperm.sum_eq]
    simp [critic_fanout_updates]
  · rw [length_merge_messages]
    have hperm : (ord.map List.length).Perm ([[m₁], [m₂], [m₃]].map List.length) :=
      hord.map List.length
    rw [hperm.sum_eq]
    simp

/-- C6 (witness): the concrete fan-out updates, folded in reversed
completion order, keep the contributed message counts. -/
theorem c6_witness :
    (merge_messages exFanoutInit.internal_messages
        (exFanoutUpdates.reverse.map Prod.fst)).length
      = exFanoutInit.internal_messages.length
        + (exFanoutUpdates.map (fun u => u.1.length)).sum :=
  (c6_fan_in_no_lost_updates (.error "down") (.error "down") (.error "down")
      "draft" examplePlan none 1 exFanoutUpdates.reverse
      (List.reverse_perm exFanoutUpdates)).2.1
